import Mathlib

set_option maxHeartbeats 1000000

/-!
Shallow embedding of the aistore cluster control plane fragments under
verification: the access-control bitmask helpers (package `cmn`), the
rebalance status probe (package `reb`), the primary proxy's cluster
handlers (package `ais`, file `prxclu.go`), and the directory-promote
walk (package `xs`).  Go `uint64` values are modelled as `Nat` with
explicit `2 ^ 64` bounds where overflow matters; Go `int64` versions as
`Int`; fallible calls as `Option`/`Except`.
-/

namespace cmn

/-- Access bits, `1 << iota` starting at `AccessGET = 1` (source `part_002`). -/
def AccessGET : Nat := 1

def AccessObjHEAD : Nat := 2

def AccessPUT : Nat := 4

def AccessAPPEND : Nat := 8

def AccessDownload : Nat := 16

def AccessObjDELETE : Nat := 32

def AccessObjRENAME : Nat := 64

def AccessPROMOTE : Nat := 128

def AccessBckHEAD : Nat := 256

def AccessObjLIST : Nat := 512

def AccessBckRENAME : Nat := 1024

def AccessPATCH : Nat := 2048

def AccessMAKENCOPIES : Nat := 4096

def AccessEC : Nat := 8192

def AccessSYNC : Nat := 16384

def AccessBckDELETE : Nat := 32768

def AccessBckCreate : Nat := 65536

def AccessBckLIST : Nat := 131072

def AccessADMIN : Nat := 262144

def AccessMax : Nat := 524288

/-- `^uint64(0)`: the all-ones 64-bit mask. -/
def allowAllAccess : Nat := 2 ^ 64 - 1

def AllowAccess : String := "allow"

def DenyAccess : String := "deny"

/-- The Go `accessOp` map, as an association list in declaration order
(note: the source has no entry for `AccessBckLIST`). -/
def accessOp : List (Nat × String) :=
  [(AccessGET, "GET"),
   (AccessObjHEAD, "HEAD-OBJECT"),
   (AccessPUT, "PUT"),
   (AccessAPPEND, "APPEND"),
   (AccessDownload, "DOWNLOAD"),
   (AccessObjDELETE, "DELETE-OBJECT"),
   (AccessObjRENAME, "RENAME-OBJECT"),
   (AccessPROMOTE, "PROMOTE"),
   (AccessBckHEAD, "HEAD-BUCKET"),
   (AccessObjLIST, "LIST-OBJECTS"),
   (AccessBckRENAME, "RENAME-BUCKET"),
   (AccessPATCH, "PATCH"),
   (AccessMAKENCOPIES, "MAKE-NCOPIES"),
   (AccessEC, "EC"),
   (AccessSYNC, "SYNC-BUCKET"),
   (AccessBckDELETE, "DELETE-BUCKET"),
   (AccessBckCreate, "CREATE-BUCKET"),
   (AccessADMIN, "ADMIN")]

def AccessOp (access : Nat) : String :=
  ((accessOp.lookup access).getD "<unknown access>")

/-- The `accList` accumulated by `accessToStr` via its sequence of
fifteen conditional appends, in source order. -/
def accList (aattrs : Nat) : List String :=
  (if aattrs &&& AccessGET = AccessGET then [AccessOp AccessGET] else []) ++
  (if aattrs &&& AccessObjHEAD = AccessObjHEAD then [AccessOp AccessObjHEAD] else []) ++
  (if aattrs &&& AccessPUT = AccessPUT then [AccessOp AccessPUT] else []) ++
  (if aattrs &&& AccessAPPEND = AccessAPPEND then [AccessOp AccessAPPEND] else []) ++
  (if aattrs &&& AccessDownload = AccessDownload then [AccessOp AccessDownload] else []) ++
  (if aattrs &&& AccessObjDELETE = AccessObjDELETE then [AccessOp AccessObjDELETE] else []) ++
  (if aattrs &&& AccessObjRENAME = AccessObjRENAME then [AccessOp AccessObjRENAME] else []) ++
  (if aattrs &&& AccessPROMOTE = AccessPROMOTE then [AccessOp AccessPROMOTE] else []) ++
  (if aattrs &&& AccessBckHEAD = AccessBckHEAD then [AccessOp AccessBckHEAD] else []) ++
  (if aattrs &&& AccessObjLIST = AccessObjLIST then [AccessOp AccessObjLIST] else []) ++
  (if aattrs &&& AccessBckRENAME = AccessBckRENAME then [AccessOp AccessBckRENAME] else []) ++
  (if aattrs &&& AccessPATCH = AccessPATCH then [AccessOp AccessPATCH] else []) ++
  (if aattrs &&& AccessMAKENCOPIES = AccessMAKENCOPIES then [AccessOp AccessMAKENCOPIES] else []) ++
  (if aattrs &&& AccessSYNC = AccessSYNC then [AccessOp AccessSYNC] else []) ++
  (if aattrs &&& AccessBckDELETE = AccessBckDELETE then [AccessOp AccessBckDELETE] else [])

def accessToStr (aattrs : Nat) : String :=
  if aattrs = 0 then "No access"
  else String.intercalate "," (accList aattrs)

/-- The fifteen permission names that `accessToStr` can possibly emit
(spec-side list used to state what the function never prints). -/
def accessToStrChecked : List String :=
  ["GET", "HEAD-OBJECT", "PUT", "APPEND", "DOWNLOAD", "DELETE-OBJECT",
   "RENAME-OBJECT", "PROMOTE", "HEAD-BUCKET", "LIST-OBJECTS", "RENAME-BUCKET",
   "PATCH", "MAKE-NCOPIES", "SYNC-BUCKET", "DELETE-BUCKET"]

def ModifyAccess (aattr : Nat) (action : String) (bits : Nat) : Nat × Option String :=
  if action = AllowAccess then (aattr ||| bits, none)
  else if action ≠ DenyAccess then
    (0, some ("unknown make-access action \"" ++ action ++ "\""))
  else (aattr &&& (allowAllAccess ^^^ bits), none)

end cmn

namespace reb

/-- The rebalance `Status` struct returned by `GET /health?reb-status=true`
(fields not inspected by `checkGlobStatus` keep their zero defaults). -/
structure Status where
  targets : List String := []
  smapVersion : Int := 0
  rebVersion : Int := 0
  rebID : Int := 0
  stage : Nat := 0
  aborted : Bool := false
  running : Bool := false
  quiescent : Bool := false
deriving DecidableEq

/-- Observable outcome of one `checkGlobStatus` call: the returned
`(status, ok)` pair plus which abort primitive (if any) was invoked. -/
structure CGSResult where
  status : Option Status
  ok : Bool
  calledAbortAndBroadcast : Bool
  calledLocalAbort : Bool
deriving DecidableEq

/-- `checkGlobStatus` (source `part_002`).  The two `Health` calls are
modelled by their outcomes: `health1`/`health2` are `some body` on
success and `none` on transport error; `abortedDuringRetry` is the
result of `AbortedAfter(sleepRetry)` between them; `unmarshal` models
`jsoniter.Unmarshal` (`none` on decode failure); `localRebID` models
both `reb.rebID.Load()` and `reb.RebID()`. -/
def checkGlobStatus (health1 : Option String) (abortedDuringRetry : Bool)
    (health2 : Option String) (unmarshal : String → Option Status)
    (localRebID : Int) (desiredStage : Nat) : CGSResult :=
  let decodeAndCheck : String → CGSResult := fun body =>
    match unmarshal body with
    | none => ⟨none, false, true, false⟩
    | some st =>
      if localRebID < st.rebID then ⟨some st, false, true, false⟩
      else if st.rebID < localRebID then ⟨some st, false, false, false⟩
      else if st.rebID = localRebID ∧ st.aborted = true then ⟨some st, false, false, true⟩
      else if desiredStage ≤ st.stage then ⟨some st, true, false, false⟩
      else ⟨some st, false, false, false⟩
  match health1 with
  | some body => decodeAndCheck body
  | none =>
    if abortedDuringRetry then ⟨none, false, false, false⟩
    else
      match health2 with
      | some body => decodeAndCheck body
      | none => ⟨none, false, true, false⟩

end reb

namespace cluster

/-- An `Snode`: identity, three network endpoints, role, flag bits. -/
structure Snode where
  id : String
  pubNet : String := ""
  controlNet : String := ""
  dataNet : String := ""
  proxyRole : Bool := false
  flags : Nat := 0
deriving DecidableEq

def Snode.IsProxy (s : Snode) : Bool := s.proxyRole

def Snode.IsTarget (s : Snode) : Bool := !s.proxyRole

/-- Modelled from the spec: `Snode.Equals` is missing from src;
"Equality compares ID *and* endpoints". -/
def Snode.Equals (a b : Snode) : Bool :=
  a.id == b.id && a.pubNet == b.pubNet && a.controlNet == b.controlNet &&
    a.dataNet == b.dataNet

/-- Modelled from the spec: the maintenance/decommissioning flag bits of
an `Snode` (exact bit positions are not in src; only membership in the
mask matters for the claims below). -/
def SnodeMaintenanceMask : Nat := 12

def Snode.inMaintenance (s : Snode) : Bool := s.flags &&& SnodeMaintenanceMask ≠ 0

/-- The cluster map `smapX`: version, UUID, primary, proxy and target
maps (as association lists keyed by node ID). -/
structure SmapX where
  version : Int := 0
  uuid : String := ""
  primary : Snode
  pmap : List (String × Snode) := []
  tmap : List (String × Snode) := []
deriving DecidableEq

def SmapX.GetProxy (m : SmapX) (sid : String) : Option Snode := m.pmap.lookup sid

def SmapX.GetTarget (m : SmapX) (sid : String) : Option Snode := m.tmap.lookup sid

def SmapX.GetNode (m : SmapX) (sid : String) : Option Snode :=
  match m.GetProxy sid with
  | some s => some s
  | none => m.GetTarget sid

def SmapX.isPrimary (m : SmapX) (si : Snode) : Bool := m.primary.id == si.id

/-- Modelled from the spec: `smapX.putNode` is missing from src; inserts
or replaces the node in its role map and bumps the version. -/
def SmapX.putNode (m : SmapX) (nsi : Snode) (flags : Nat) : SmapX :=
  let node := { nsi with flags := nsi.flags ||| flags }
  if nsi.IsProxy then
    { m with pmap := (nsi.id, node) :: m.pmap.filter (fun kv => kv.1 ≠ nsi.id),
             version := m.version + 1 }
  else
    { m with tmap := (nsi.id, node) :: m.tmap.filter (fun kv => kv.1 ≠ nsi.id),
             version := m.version + 1 }

/-- Modelled from the spec: `smapX.delProxy` is missing from src. -/
def SmapX.delProxy (m : SmapX) (sid : String) : SmapX :=
  { m with pmap := m.pmap.filter (fun kv => kv.1 ≠ sid), version := m.version + 1 }

/-- Modelled from the spec: `smapX.delTarget` is missing from src. -/
def SmapX.delTarget (m : SmapX) (sid : String) : SmapX :=
  { m with tmap := m.tmap.filter (fun kv => kv.1 ≠ sid), version := m.version + 1 }

/-- Sample cluster used to instantiate the theorems below: primary `p1`,
one more proxy `p2`, two active targets `t1`, `t2`. -/
def pOne : Snode :=
  { id := "p1", pubNet := "pub1", controlNet := "c1", dataNet := "d1", proxyRole := true }

def pTwo : Snode :=
  { id := "p2", pubNet := "pub2", controlNet := "c2", dataNet := "d2", proxyRole := true }

def tOne : Snode := { id := "t1", pubNet := "pubt1", controlNet := "ct1", dataNet := "dt1" }

def tTwo : Snode := { id := "t2", pubNet := "pubt2", controlNet := "ct2", dataNet := "dt2" }

def sampleSmap : SmapX :=
  { version := 3, uuid := "uuid-1", primary := pOne,
    pmap := [("p1", pOne), ("p2", pTwo)],
    tmap := [("t1", tOne), ("t2", tTwo)] }

end cluster

namespace ais

open cluster

/-- The rebalance descriptor `rebMD` (only its version matters here). -/
structure RebMD where
  version : Int := 0
deriving DecidableEq

/-- `rebMD.inc`. -/
def RebMD.inc (r : RebMD) : RebMD := { version := r.version + 1 }

/-- Modelled from the spec: `rmd.modify` is missing from src — clones the
current snapshot, runs the modifier's `pre` on the clone, installs and
returns it. -/
def rmdModify (store : RebMD) (pre : RebMD → RebMD) : RebMD := pre store

/-- The fields of `smapModifier` used by the handlers under study.
`smap` is the pre-modification snapshot captured by `modify`. -/
structure SmapModifier where
  sid : String := ""
  skipReb : Bool := false
  status : Nat := 0
  rmd : Option RebMD := none
  smap : SmapX
deriving DecidableEq

/-- `_perfRebPost` (prxclu.go:568).  `requiresRebalance` lives outside
src and is passed in abstractly.  Returns the updated modifier, the RMD
store after the call, and the number of `rmd.modify` invocations. -/
def _perfRebPost (requiresRebalance : SmapX → SmapX → Bool)
    (ctx : SmapModifier) (clone : SmapX) (rmdStore : RebMD) :
    SmapModifier × RebMD × Nat :=
  if !ctx.skipReb && requiresRebalance ctx.smap clone then
    let rmdClone := rmdModify rmdStore RebMD.inc
    ({ ctx with rmd := some rmdClone }, rmdClone, 1)
  else
    (ctx, rmdStore, 0)

/-- `addOrUpdateNode` (prxclu.go:535).  `detectDup` abstracts the
endpoint probe `detectDaemonDuplicate`; the `heardFrom` keepalive side
effect does not touch the Smap and is elided. -/
def addOrUpdateNode (nodeStarted : Bool) (detectDup : Snode → Snode → Bool)
    (nsi : Snode) (osi : Option Snode) (keepalive : Bool) : Bool :=
  if keepalive then
    match osi with
    | none => true
    | some osi =>
      if !(osi.Equals nsi) then
        if detectDup osi nsi then false else true
      else false
  else
    match osi with
    | some osi =>
      if !nodeStarted then true
      else if osi.Equals nsi then false
      else true
    | none => true

/-- `handleJoinKalive` (prxclu.go:413), run under the Smap lock.
`validateUUID` and `isDuplicate` abstract the `smapX` methods that are
not in src (each returns `some err` to reject).  Returns the owner's
resulting Smap (changed only by the pre-cluster-start `put`), the
`update` flag and the error. -/
def handleJoinKalive (p : Snode) (clusterStarted nodeStarted : Bool)
    (detectDup : Snode → Snode → Bool)
    (validateUUID : SmapX → SmapX → Option String)
    (isDuplicate : SmapX → Snode → Option String)
    (smap : SmapX) (nsi : Snode) (regSmap : SmapX)
    (keepalive : Bool) (flags : Nat) : SmapX × Bool × Option String :=
  if !(smap.isPrimary p) then
    (smap, false, some ("not primary: cannot join " ++ nsi.id))
  else
    let proceed :=
      if nsi.IsProxy then
        addOrUpdateNode nodeStarted detectDup nsi (smap.GetProxy nsi.id) keepalive
      else
        !keepalive || addOrUpdateNode nodeStarted detectDup nsi (smap.GetTarget nsi.id) keepalive
    if !proceed then (smap, false, none)
    else
      match validateUUID smap regSmap with
      | some e => (smap, false, some e)
      | none =>
        if !clusterStarted then (smap.putNode nsi flags, false, none)
        else
          match isDuplicate smap nsi with
          | some e => (smap, false, some e)
          | none => (smap, true, none)

/-- The keepalive path of `httpclupost` (prxclu.go:256 and 347-362):
drop the beat during primary transition, otherwise call
`handleJoinKalive` under the lock; on error answer with it, and only if
`update` is true schedule `updateAndDistribute` (i.e. `Smap.modify`).
Returns (resulting Smap, error response, modify scheduled). -/
def httpclupostKalive (p : Snode) (inPrimaryTransition clusterStarted nodeStarted : Bool)
    (detectDup : Snode → Snode → Bool)
    (validateUUID : SmapX → SmapX → Option String)
    (isDuplicate : SmapX → Snode → Option String)
    (smap : SmapX) (nsi : Snode) (regSmap : SmapX) :
    SmapX × Option String × Bool :=
  if inPrimaryTransition then (smap, none, false)
  else
    let r := handleJoinKalive p clusterStarted nodeStarted detectDup validateUUID
      isDuplicate smap nsi regSmap true 0
    match r.2.2 with
    | some e => (r.1, some e, false)
    | none => if r.2.1 = false then (r.1, none, false) else (r.1, none, true)

/-- Result of one node in a `bcastGroup` fan-out. -/
structure BcastRes where
  siID : String
  err : Option String := none
deriving DecidableEq

/-- Proxy-side state mutated by `cluSetPrimary`. -/
structure PrimState where
  smap : SmapX
  inPrimaryTransition : Bool := false
  becameNonPrimary : Bool := false
  smapModifyCalls : Nat := 0
deriving DecidableEq

/-- `cluSetPrimary` (prxclu.go:1059) after the forwardCP check: validate
the designated proxy, run the prepare broadcast (its per-node outcomes
given as `prepareResults`; the Go loop reports the first failure), and
only if all prepared: set the in-transition flag, install the new
primary under `Smap.modify` (counted), call `becomeNonPrimary`, run the
commit broadcast, and clear the flag (deferred).  `presentInMaint`
abstracts `smap.PresentInMaint`. -/
def cluSetPrimary (p : Snode) (presentInMaint : SmapX → Snode → Bool)
    (st : PrimState) (proxyid : String)
    (prepareResults commitResults : List BcastRes) : PrimState × Option String :=
  let smap := st.smap
  match smap.GetProxy proxyid with
  | none => (st, some ("new primary proxy " ++ proxyid ++ " is not present in the Smap"))
  | some psi =>
    if proxyid == p.id then (st, none)
    else if presentInMaint smap psi then
      (st, some ("cannot set new primary: " ++ proxyid ++ " is under maintenance"))
    else
      match prepareResults.find? (fun res => res.err.isSome) with
      | some res =>
        (st, some ("Failed to set primary " ++ proxyid ++ ": err from " ++ res.siID ++
          " in the prepare phase"))
      | none =>
        let st1 : PrimState := { st with inPrimaryTransition := true }
        let st2 : PrimState :=
          { st1 with smap := { smap with primary := psi },
                     becameNonPrimary := true,
                     smapModifyCalls := st1.smapModifyCalls + 1 }
        let _ := commitResults
        ({ st2 with inPrimaryTransition := false }, none)

/-- `_unregNodePre` (prxclu.go:1230).  `staffIC` abstracts the IC
re-staffing (not in src); the `rproxy.nodes.Delete` cache eviction does
not touch the Smap and is elided.  Returns the updated modifier, the
clone after mutation, and the pre error. -/
def _unregNodePre (p : Snode) (nodeStarted : Bool) (staffIC : SmapX → SmapX)
    (ctx : SmapModifier) (clone : SmapX) : SmapModifier × SmapX × Option String :=
  let node := clone.GetNode ctx.sid
  if !(clone.isPrimary p) then
    (ctx, clone, some ("not primary: cannot remove " ++ ctx.sid))
  else
    match node with
    | none => ({ ctx with status := 404 }, clone, some ("failed to remove: node " ++ ctx.sid ++ " not found"))
    | some node =>
      if !nodeStarted then ({ ctx with status := 503 }, clone, none)
      else if node.IsProxy then (ctx, staffIC (clone.delProxy ctx.sid), none)
      else (ctx, staffIC (clone.delTarget ctx.sid), none)

/-- Modelled from the spec: `smapOwner.modify` is missing from src —
clones the current snapshot, runs `ctx.pre(clone)`, installs the clone
iff `pre` returned no error, then runs `ctx.post(clone)` (here
`_perfRebPost`).  Specialized to the `unregNode` modifier.  Returns the
installed Smap, the RMD store, the final modifier and the error. -/
def smapModifyUnreg (p : Snode) (nodeStarted : Bool) (staffIC : SmapX → SmapX)
    (requiresRebalance : SmapX → SmapX → Bool)
    (smapStore : SmapX) (rmdStore : RebMD) (ctx0 : SmapModifier) :
    SmapX × RebMD × SmapModifier × Option String :=
  let ctx := { ctx0 with smap := smapStore }
  let clone := smapStore
  match _unregNodePre p nodeStarted staffIC ctx clone with
  | (ctx1, _, some err) => (smapStore, rmdStore, ctx1, some err)
  | (ctx1, clone1, none) =>
    let pr := _perfRebPost requiresRebalance ctx1 clone1 rmdStore
    (clone1, pr.2.1, pr.1, none)

/-- `unregNode` (prxclu.go:1217): build the modifier
(`pre = _unregNodePre`, `post = _perfRebPost`), run `Smap.modify`, and
return `(ctx.status, err)` along with the resulting stores. -/
def unregNode (p : Snode) (nodeStarted : Bool) (staffIC : SmapX → SmapX)
    (requiresRebalance : SmapX → SmapX → Bool)
    (smapStore : SmapX) (rmdStore : RebMD) (si : Snode) (skipReb : Bool) :
    SmapX × RebMD × Nat × Option String :=
  let ctx : SmapModifier := { sid := si.id, skipReb := skipReb, smap := smapStore }
  let r := smapModifyUnreg p nodeStarted staffIC requiresRebalance smapStore rmdStore ctx
  (r.1, r.2.1, r.2.2.1.status, r.2.2.2)

/-- The intra-cluster self-initiated branch of `httpcludel`
(prxclu.go:1143, caller-ID equal to the path ID): call `unregNode` with
`skipReb = false` and send an error response only when it returns a
non-nil error.  Returns (resulting Smap, RMD, response error). -/
def httpcludelIntraSelf (p : Snode) (nodeStarted : Bool) (staffIC : SmapX → SmapX)
    (requiresRebalance : SmapX → SmapX → Bool)
    (smapStore : SmapX) (rmdStore : RebMD) (node : Snode) :
    SmapX × RebMD × Option String :=
  let r := unregNode p nodeStarted staffIC requiresRebalance smapStore rmdStore node false
  (r.1, r.2.1, r.2.2.2)

/-- Concrete inputs used to instantiate the `prxclu` theorems below. -/
def c3req : SmapX → SmapX → Bool := fun _ _ => true

def c3ctxSkip : SmapModifier := { skipReb := true, smap := sampleSmap }

def c3ctxNoSkip : SmapModifier := { skipReb := false, smap := sampleSmap }

def c3store : RebMD := { version := 7 }

def c4maint : SmapX → Snode → Bool := fun _ _ => false

def c4prim : PrimState := { smap := sampleSmap }

def c4res : BcastRes := { siID := "t1", err := some "500" }

def c5detectDup : Snode → Snode → Bool := fun _ _ => false

def c5validateUUID : SmapX → SmapX → Option String := fun _ _ => none

def c5isDup : SmapX → Snode → Option String := fun _ _ => none

def c9staffIC : SmapX → SmapX := fun m => m

def c9req : SmapX → SmapX → Bool := fun _ _ => false

def c9rmd : RebMD := { version := 7 }

end ais

namespace xs

open cluster

/-- The active (non-maintenance) targets of an Smap, in map order. -/
def activeTargets (smap : SmapX) : List Snode :=
  (smap.tmap.map (fun kv => kv.2)).filter (fun t => !t.inMaintenance)

/-- One step of the HRW argmax scan. -/
def hrwPick (hash : String → String → Nat) (uname : String)
    (acc : Option Snode) (t : Snode) : Option Snode :=
  match acc with
  | none => some t
  | some b =>
    if hash b.id uname < hash t.id uname ∨
       (hash t.id uname = hash b.id uname ∧ b.id < t.id) then some t
    else some b

/-- Modelled from the spec: `Smap.HrwName2T` is missing from src — "for
each active target (not in maintenance), compute a hash of `(t.ID,
name)` and return the node with the maximum value; ties are broken by
lexicographic ID"; errs (`none`) when there is no target. -/
def hrwName2T (hash : String → String → Nat) (smap : SmapX) (uname : String) :
    Option Snode :=
  (activeTargets smap).foldl (hrwPick hash uname) none

/-- `XactDirPromote.walk` (source `part_000`) for one directory entry.
`promotedObjDstName` abstracts `cmn.PromotedObjDstName(fqn, SrcFQN,
ObjName)`; `makeUname` abstracts `bck.MakeUname`; `promote` abstracts
`T.Promote` (its error result); `isNotExist` abstracts
`cmn.IsNotExist`.  Returns (Promote invoked, error returned). -/
def walk (hash : String → String → Nat) (selfID : String) (smap : SmapX)
    (srcFQN dstObjName : String) (overwriteDst deleteSrc : Bool)
    (confirmedFshare : Bool)
    (promotedObjDstName : String → String → String → Except String String)
    (makeUname : String → String)
    (promote : String → String → Bool → Bool → Option String)
    (isNotExist : String → Bool)
    (fqn : String) (isDir : Bool) : Bool × Option String :=
  if isDir then (false, none)
  else
    match promotedObjDstName fqn srcFQN dstObjName with
    | .error e => (false, some e)
    | .ok objName =>
      let doPromote : Bool × Option String :=
        match promote fqn objName overwriteDst deleteSrc with
        | some msg => if isNotExist msg then (true, none) else (true, some msg)
        | none => (true, none)
      if confirmedFshare then
        match hrwName2T hash smap (makeUname objName) with
        | none => (false, some "no targets in the cluster map")
        | some si => if si.id ≠ selfID then (false, none) else doPromote
      else doPromote

/-- Concrete inputs used to instantiate the promote-walk theorem below:
a deterministic hash under which target `t1` owns every name. -/
def c6hash : String → String → Nat := fun i _ => if i == "t1" then 5 else 3

def c6pODN : String → String → String → Except String String := fun _ _ o => .ok o

def c6makeUname : String → String := fun s => s

def c6promote : String → String → Bool → Bool → Option String := fun _ _ _ _ => none

def c6isNE : String → Bool := fun _ => false

end xs

namespace reb

/-- Concrete peer status carrying a strictly newer rebalance ID (g6 vs
local g5), used to instantiate the epoch rules. -/
def c1Status : Status := { rebID := 6 }

def c1Unmarshal : String → Option Status := fun _ => some c1Status

def c2Unmarshal : String → Option Status := fun _ => some { rebID := 6 }

/-- Concrete peer status with the same rebalance ID as the local round
and the `Aborted` flag set. -/
def c2aStatus : Status := { rebID := 5, aborted := true }

def c2aUnmarshal : String → Option Status := fun _ => some c2aStatus

end reb

namespace cmn

theorem accList_mem_checked (b : Nat) (s : String) (hs : s ∈ accList b) :
    s ∈ accessToStrChecked := by
  simp only [accList, List.mem_append] at hs
  rcases hs with (((((((((((((h | h) | h) | h) | h) | h) | h) | h) | h) | h) | h) | h) | h) | h) | h <;>
    (split at h
     · simp only [List.mem_singleton] at h
       subst h
       decide
     · simp at h)

/-- C7: `ModifyAccess(cur, action, bits)` returns `cur OR bits` with no
error for action `allow`, `cur AND NOT bits` (bitwise, over the 64-bit
domain) with no error for action `deny`, and a zero result with an error
for every other action string. -/
theorem modifyAccess_actions_spec (cur bits : Nat) (action : String)
    (hcur : cur < 2 ^ 64) :
    (action = AllowAccess →
      (ModifyAccess cur action bits).2 = none ∧
      ∀ i, ((ModifyAccess cur action bits).1).testBit i
        = (cur.testBit i || bits.testBit i)) ∧
    (action = DenyAccess →
      (ModifyAccess cur action bits).2 = none ∧
      ∀ i, ((ModifyAccess cur action bits).1).testBit i
        = (cur.testBit i && !bits.testBit i)) ∧
    (action ≠ AllowAccess → action ≠ DenyAccess →
      ModifyAccess cur action bits
        = (0, some ("unknown make-access action \"" ++ action ++ "\""))) := by
  refine ⟨?_, ?_, ?_⟩
  · intro h
    have hA : ModifyAccess cur action bits = (cur ||| bits, none) := by
      simp [ModifyAccess, h]
    rw [hA]
    exact ⟨rfl, fun i => Nat.testBit_lor cur bits i⟩
  · intro h
    subst h
    have hD : ModifyAccess cur DenyAccess bits
        = (cur &&& (allowAllAccess ^^^ bits), none) := by
      simp [ModifyAccess, AllowAccess, DenyAccess]
    rw [hD]
    refine ⟨rfl, fun i => ?_⟩
    simp only [Nat.testBit_land, Nat.testBit_xor, allowAllAccess,
      Nat.testBit_two_pow_sub_one]
    by_cases hi : i < 64
    · simp [hi]
    · have hc : cur.testBit i = false :=
        Nat.testBit_eq_false_of_lt
          (lt_of_lt_of_le hcur (Nat.pow_le_pow_right (by norm_num) (not_lt.1 hi)))
      simp [hi, hc]
  · intro h1 h2
    simp [ModifyAccess, h1, h2]

theorem modifyAccess_actions_spec_witness :
    (ModifyAccess 5 AllowAccess 3).2 = none ∧
    (ModifyAccess 5 AllowAccess 3).1.testBit 1
      = (Nat.testBit 5 1 || Nat.testBit 3 1) := by
  have h := (modifyAccess_actions_spec 5 3 AllowAccess (by norm_num)).1 rfl
  exact ⟨h.1, h.2 1⟩

/-- C8: allowing bits `b` and then denying the same bits yields exactly
the mask obtained by the deny alone. -/
theorem modifyAccess_allow_then_deny (m b : Nat) (hm : m < 2 ^ 64)
    (hb : b < 2 ^ 64) :
    ModifyAccess (ModifyAccess m AllowAccess b).1 DenyAccess b
      = ModifyAccess m DenyAccess b := by
  have hA : (ModifyAccess m AllowAccess b).1 = m ||| b := by
    simp [ModifyAccess]
  have hD : ∀ x : Nat, ModifyAccess x DenyAccess b
      = (x &&& (allowAllAccess ^^^ b), none) := by
    intro x
    simp [ModifyAccess, AllowAccess, DenyAccess]
  rw [hA, hD, hD]
  suffices h : (m ||| b) &&& (allowAllAccess ^^^ b) = m &&& (allowAllAccess ^^^ b) by
    rw [h]
  apply Nat.eq_of_testBit_eq
  intro i
  simp only [Nat.testBit_land, Nat.testBit_lor, Nat.testBit_xor, allowAllAccess,
    Nat.testBit_two_pow_sub_one]
  by_cases hbi : b.testBit i = true
  · by_cases hi : i < 64
    · simp [hbi, hi]
    · have : b.testBit i = false :=
        Nat.testBit_eq_false_of_lt
          (lt_of_lt_of_le hb (Nat.pow_le_pow_right (by norm_num) (not_lt.1 hi)))
      rw [this] at hbi
      exact absurd hbi (by simp)
  · simp only [Bool.not_eq_true] at hbi
    simp [hbi]

theorem modifyAccess_allow_then_deny_witness :
    ModifyAccess (ModifyAccess 5 AllowAccess 3).1 DenyAccess 3
      = ModifyAccess 5 DenyAccess 3 :=
  modifyAccess_allow_then_deny 5 3 (by norm_num) (by norm_num)

/-- C10: `accessToStr` never emits the cluster-level permission names:
a nonzero mask whose set bits are only cluster-level (CREATE-BUCKET,
LIST-BUCKETS, ADMIN) yields the empty string, not "No access"; and for
any mask the emitted names are among the fifteen object- and
bucket-level names actually checked (RENAME-BUCKET among them; EC,
CREATE-BUCKET, LIST-BUCKETS, ADMIN are never checked). -/
theorem accessToStr_cluster_bits (a : Nat) (h0 : a ≠ 0)
    (hlow : a &&& (AccessBckCreate - 1) = 0) (hhi : a < AccessMax) :
    accessToStr a = "" ∧
    (∀ b : Nat, ∀ s ∈ accList b, s ∈ accessToStrChecked) ∧
    "EC" ∉ accessToStrChecked ∧ "CREATE-BUCKET" ∉ accessToStrChecked ∧
    "LIST-BUCKETS" ∉ accessToStrChecked ∧ "ADMIN" ∉ accessToStrChecked ∧
    "RENAME-BUCKET" ∈ accessToStrChecked := by
  refine ⟨?_, fun b s hs => accList_mem_checked b s hs,
    by decide, by decide, by decide, by decide, by decide⟩
  have hlow' : a &&& (2 ^ 16 - 1) = 0 := by
    have he : AccessBckCreate - 1 = 2 ^ 16 - 1 := by norm_num [AccessBckCreate]
    rw [he] at hlow
    exact hlow
  have hmod : a % 2 ^ 16 = 0 := by
    rw [Nat.and_pow_two_sub_one_eq_mod] at hlow'
    exact hlow'
  obtain ⟨q, hq⟩ := Nat.dvd_of_mod_eq_zero hmod
  have hq8 : q < 8 := by
    rw [hq, AccessMax] at hhi
    omega
  have hq1 : 1 ≤ q := by
    rcases Nat.eq_zero_or_pos q with h | h
    · exfalso
      exact h0 (by rw [hq, h, Nat.mul_zero])
    · exact h
  subst hq
  interval_cases q <;> decide

theorem accessToStr_cluster_bits_witness : accessToStr 65536 = "" :=
  (accessToStr_cluster_bits 65536 (by decide) (by decide) (by decide)).1

end cmn

namespace reb

/-- C1: for every peer status successfully obtained and decoded by
`checkGlobStatus`, a peer `RebID` strictly greater than the local
round's `RebID` makes the local target invoke `abortAndBroadcast`
(abort its own round and broadcast the abort to all peers) and return
not-ok. -/
theorem checkGlobStatus_newer_peer_aborts
    (health1 : Option String) (abortedDuringRetry : Bool) (health2 : Option String)
    (unmarshal : String → Option Status) (localRebID : Int) (desiredStage : Nat)
    (body : String) (st : Status)
    (hbody : health1 = some body ∨
      (health1 = none ∧ abortedDuringRetry = false ∧ health2 = some body))
    (hdec : unmarshal body = some st) (hnew : localRebID < st.rebID) :
    (checkGlobStatus health1 abortedDuringRetry health2 unmarshal localRebID
      desiredStage).calledAbortAndBroadcast = true ∧
    (checkGlobStatus health1 abortedDuringRetry health2 unmarshal localRebID
      desiredStage).ok = false := by
  rcases hbody with h | ⟨h1, h2, h3⟩
  · subst h
    simp [checkGlobStatus, hdec, hnew]
  · subst h1
    subst h2
    subst h3
    simp [checkGlobStatus, hdec, hnew]

theorem checkGlobStatus_newer_peer_aborts_witness :
    (checkGlobStatus (some "b") false none c1Unmarshal 5 0).calledAbortAndBroadcast
      = true ∧
    (checkGlobStatus (some "b") false none c1Unmarshal 5 0).ok = false :=
  checkGlobStatus_newer_peer_aborts (some "b") false none c1Unmarshal 5 0 "b"
    c1Status (Or.inl rfl) rfl (by decide)

/-- C2 counterexample: a round aborted because a peer reported a
strictly newer `RebID` (peer g6, local g5) does go through
`abortAndBroadcast` — an outgoing abort broadcast *is* sent, refuting
the claim that no broadcast happens in this case. -/
theorem checkGlobStatus_newer_peer_broadcasts_counterexample :
    checkGlobStatus (some "body") false none c2Unmarshal 5 0 =
      { status := some { rebID := 6 }, ok := false,
        calledAbortAndBroadcast := true, calledLocalAbort := false } := by
  decide

/-- C2 (amended): a round aborted because a peer with the *same*
`RebID` reported `Aborted` ends locally aborted (plain `xreb.Abort`),
with no outgoing abort broadcast, and `checkGlobStatus` returns
not-ok. -/
theorem checkGlobStatus_same_rebid_aborted_no_broadcast
    (health1 : Option String) (abortedDuringRetry : Bool) (health2 : Option String)
    (unmarshal : String → Option Status) (localRebID : Int) (desiredStage : Nat)
    (body : String) (st : Status)
    (hbody : health1 = some body ∨
      (health1 = none ∧ abortedDuringRetry = false ∧ health2 = some body))
    (hdec : unmarshal body = some st) (heq : st.rebID = localRebID)
    (hab : st.aborted = true) :
    (checkGlobStatus health1 abortedDuringRetry health2 unmarshal localRebID
      desiredStage).calledLocalAbort = true ∧
    (checkGlobStatus health1 abortedDuringRetry health2 unmarshal localRebID
      desiredStage).calledAbortAndBroadcast = false ∧
    (checkGlobStatus health1 abortedDuringRetry health2 unmarshal localRebID
      desiredStage).ok = false := by
  rcases hbody with h | ⟨h1, h2, h3⟩
  · subst h
    simp [checkGlobStatus, hdec, heq, hab]
  · subst h1
    subst h2
    subst h3
    simp [checkGlobStatus, hdec, heq, hab]

theorem checkGlobStatus_same_rebid_aborted_no_broadcast_witness :
    (checkGlobStatus (some "b") false none c2aUnmarshal 5 1).calledLocalAbort
      = true ∧
    (checkGlobStatus (some "b") false none c2aUnmarshal 5 1).calledAbortAndBroadcast
      = false ∧
    (checkGlobStatus (some "b") false none c2aUnmarshal 5 1).ok = false :=
  checkGlobStatus_same_rebid_aborted_no_broadcast (some "b") false none
    c2aUnmarshal 5 1 "b" c2aStatus (Or.inl rfl) rfl rfl rfl

end reb

namespace ais

open cluster

/-- C3: in `_perfRebPost`, `skipReb` suppresses any RMD modification
(no `rmd.modify` call, no version change, `ctx.rmd` untouched)
regardless of `requiresRebalance`; without `skipReb`, a true
`requiresRebalance` triggers exactly one `rmd.modify` that increments
the version and records the clone in `ctx.rmd`. -/
theorem perfRebPost_skipReb_spec (requiresRebalance : SmapX → SmapX → Bool)
    (ctx : SmapModifier) (clone : SmapX) (store : RebMD) :
    (ctx.skipReb = true →
      (_perfRebPost requiresRebalance ctx clone store).1.rmd = ctx.rmd ∧
      (_perfRebPost requiresRebalance ctx clone store).2.1 = store ∧
      (_perfRebPost requiresRebalance ctx clone store).2.2 = 0) ∧
    (ctx.skipReb = false → requiresRebalance ctx.smap clone = true →
      (_perfRebPost requiresRebalance ctx clone store).2.2 = 1 ∧
      (_perfRebPost requiresRebalance ctx clone store).2.1 = store.inc ∧
      (_perfRebPost requiresRebalance ctx clone store).1.rmd = some store.inc) := by
  constructor
  · intro h
    simp [_perfRebPost, h]
  · intro h hreq
    simp [_perfRebPost, h, hreq, rmdModify]

theorem perfRebPost_skipReb_spec_witness :
    (_perfRebPost c3req c3ctxSkip sampleSmap c3store).2.2 = 0 ∧
    (_perfRebPost c3req c3ctxNoSkip sampleSmap c3store).2.2 = 1 :=
  ⟨((perfRebPost_skipReb_spec c3req c3ctxSkip sampleSmap c3store).1 rfl).2.2,
   ((perfRebPost_skipReb_spec c3req c3ctxNoSkip sampleSmap c3store).2 rfl rfl).1⟩

/-- C4: if any node fails the prepare-phase broadcast of
`cluSetPrimary`, the handler answers with an error naming the (first)
failing node and performs no state change at all: no `Smap.modify`,
`Primary` unchanged, `inPrimaryTransition` never set,
`becomeNonPrimary` not invoked. -/
theorem cluSetPrimary_prepare_failure (p : Snode)
    (presentInMaint : SmapX → Snode → Bool) (st : PrimState) (proxyid : String)
    (prep commit : List BcastRes) (psi : Snode) (res : BcastRes)
    (hpsi : st.smap.GetProxy proxyid = some psi)
    (hne : (proxyid == p.id) = false)
    (hmaint : presentInMaint st.smap psi = false)
    (hfind : prep.find? (fun r => r.err.isSome) = some res) :
    cluSetPrimary p presentInMaint st proxyid prep commit =
      (st, some ("Failed to set primary " ++ proxyid ++ ": err from " ++ res.siID ++
        " in the prepare phase")) ∧
    res ∈ prep ∧ res.err.isSome = true := by
  refine ⟨?_, List.mem_of_find?_eq_some hfind, ?_⟩
  · simp [cluSetPrimary, hpsi, hne, hmaint, hfind]
  · simpa using List.find?_some hfind

theorem cluSetPrimary_prepare_failure_witness :
    cluSetPrimary pOne c4maint c4prim "p2" [{ siID := "t2" }, c4res] [] =
      (c4prim, some ("Failed to set primary " ++ "p2" ++ ": err from " ++ "t1" ++
        " in the prepare phase")) :=
  (cluSetPrimary_prepare_failure pOne c4maint c4prim "p2" [{ siID := "t2" }, c4res] []
    pTwo c4res (by decide) (by decide) rfl (by decide)).1

/-- C5: a keepalive for a node already in the Smap with an equal Snode
(same ID and endpoints) is idempotent: `addOrUpdateNode` returns false,
`handleJoinKalive` reports `update = false` with no error and leaves
the Smap (hence its version) untouched, and `httpclupost` schedules no
`Smap.modify`. -/
theorem keepalive_unchanged_node_idempotent (p : Snode)
    (clusterStarted nodeStarted : Bool) (detectDup : Snode → Snode → Bool)
    (validateUUID : SmapX → SmapX → Option String)
    (isDuplicate : SmapX → Snode → Option String)
    (smap : SmapX) (nsi osi : Snode) (regSmap : SmapX)
    (hprim : smap.isPrimary p = true)
    (hosi : (if nsi.IsProxy then smap.GetProxy nsi.id else smap.GetTarget nsi.id)
      = some osi)
    (heq : osi.Equals nsi = true) :
    addOrUpdateNode nodeStarted detectDup nsi (some osi) true = false ∧
    handleJoinKalive p clusterStarted nodeStarted detectDup validateUUID isDuplicate
      smap nsi regSmap true 0 = (smap, false, none) ∧
    httpclupostKalive p false clusterStarted nodeStarted detectDup validateUUID
      isDuplicate smap nsi regSmap = (smap, none, false) := by
  have haou : addOrUpdateNode nodeStarted detectDup nsi (some osi) true = false := by
    simp [addOrUpdateNode, heq]
  have hjk : handleJoinKalive p clusterStarted nodeStarted detectDup validateUUID
      isDuplicate smap nsi regSmap true 0 = (smap, false, none) := by
    by_cases hp : nsi.IsProxy
    · have hosi1 : smap.GetProxy nsi.id = some osi := by simpa [hp] using hosi
      simp [handleJoinKalive, hprim, hp, hosi1, haou]
    · have hosi1 : smap.GetTarget nsi.id = some osi := by simpa [hp] using hosi
      simp [handleJoinKalive, hprim, hp, hosi1, haou]
  refine ⟨haou, hjk, ?_⟩
  simp [httpclupostKalive, hjk]

theorem keepalive_unchanged_node_idempotent_witness :
    httpclupostKalive pOne false true true c5detectDup c5validateUUID c5isDup
      sampleSmap pTwo sampleSmap = (sampleSmap, none, false) :=
  (keepalive_unchanged_node_idempotent pOne true true c5detectDup c5validateUUID
    c5isDup sampleSmap pTwo pTwo sampleSmap (by decide) (by decide) (by decide)).2.2

/-- C9: removing a node that is present in the Smap before
`NodeStarted()` makes `_unregNodePre` succeed (nil error) without
deleting anything, `unregNode` report status 503 with a nil error, and
the self-initiated `httpcludel` branch send no error response — the
node stays in the installed cluster map. -/
theorem unreg_node_not_started_silent (p : Snode) (staffIC : SmapX → SmapX)
    (requiresRebalance : SmapX → SmapX → Bool) (smap : SmapX) (rmd : RebMD)
    (node : Snode)
    (hprim : smap.isPrimary p = true)
    (hnode : smap.GetNode node.id = some node) :
    _unregNodePre p false staffIC { sid := node.id, smap := smap } smap
      = ({ sid := node.id, smap := smap, status := 503 }, smap, none) ∧
    (unregNode p false staffIC requiresRebalance smap rmd node false).1 = smap ∧
    (unregNode p false staffIC requiresRebalance smap rmd node false).2.2
      = (503, none) ∧
    (unregNode p false staffIC requiresRebalance smap rmd node false).1.GetNode
      node.id = some node ∧
    (httpcludelIntraSelf p false staffIC requiresRebalance smap rmd node).2.2
      = none := by
  have hpre : _unregNodePre p false staffIC { sid := node.id, smap := smap } smap
      = ({ sid := node.id, smap := smap, status := 503 }, smap, none) := by
    simp [_unregNodePre, hprim, hnode]
  have hun : ∃ r2 : RebMD,
      unregNode p false staffIC requiresRebalance smap rmd node false
        = (smap, r2, 503, none) := by
    by_cases hreq : requiresRebalance smap smap = true
    · exact ⟨rmd.inc, by
        simp [unregNode, smapModifyUnreg, _unregNodePre, hprim, hnode,
          _perfRebPost, hreq, rmdModify]⟩
    · exact ⟨rmd, by
        simp [unregNode, smapModifyUnreg, _unregNodePre, hprim, hnode,
          _perfRebPost, hreq, rmdModify]⟩
  obtain ⟨r2, hr⟩ := hun
  refine ⟨hpre, ?_, ?_, ?_, ?_⟩
  · rw [hr]
  · rw [hr]
  · rw [hr]
    exact hnode
  · simp [httpcludelIntraSelf, hr]

theorem unreg_node_not_started_silent_witness :
    (unregNode pOne false c9staffIC c9req sampleSmap c9rmd tOne false).2.2
      = (503, none) ∧
    (httpcludelIntraSelf pOne false c9staffIC c9req sampleSmap c9rmd tOne).2.2
      = none := by
  have h := unreg_node_not_started_silent pOne c9staffIC c9req sampleSmap c9rmd
    tOne (by decide) (by decide)
  exact ⟨h.2.2.1, h.2.2.2.2⟩

end ais

namespace xs

open cluster

theorem hrwPick_foldl_mem (hash : String → String → Nat) (uname : String) :
    ∀ (l : List Snode) (acc : Option Snode) (t : Snode),
      l.foldl (hrwPick hash uname) acc = some t → acc = some t ∨ t ∈ l := by
  intro l
  induction l with
  | nil =>
    intro acc t h
    exact Or.inl h
  | cons x xs ih =>
    intro acc t h
    rcases ih (hrwPick hash uname acc x) t h with h1 | h1
    · cases acc with
      | none =>
        simp only [hrwPick] at h1
        injection h1 with h1
        exact Or.inr (h1 ▸ List.mem_cons_self x xs)
      | some b =>
        simp only [hrwPick] at h1
        split at h1
        · injection h1 with h1
          exact Or.inr (h1 ▸ List.mem_cons_self x xs)
        · exact Or.inl h1
    · exact Or.inr (List.mem_cons_of_mem x h1)

theorem hrwName2T_mem (hash : String → String → Nat) (smap : SmapX)
    (uname : String) (t : Snode) (h : hrwName2T hash smap uname = some t) :
    t ∈ activeTargets smap := by
  rcases hrwPick_foldl_mem hash uname (activeTargets smap) none t h with h1 | h1
  · exact absurd h1 (by simp)
  · exact h1

/-- C6: during a promote walk with file-share confirmed, a regular file
whose promoted name resolves is promoted iff the HRW owner of that name
is this target; files owned by another target are skipped with no
error; and with a shared Smap covering two distinct targets, exactly
one of the two promotes the file. -/
theorem walk_fshare_promote_iff_hrw_local
    (hash : String → String → Nat) (selfA selfB : String) (smap : SmapX)
    (srcFQN dstObjName : String) (over del : Bool)
    (pODN : String → String → String → Except String String)
    (makeUname : String → String)
    (promoteA promoteB : String → String → Bool → Bool → Option String)
    (isNE : String → Bool) (fqn objName : String) (si : Snode)
    (hobj : pODN fqn srcFQN dstObjName = .ok objName)
    (hhrw : hrwName2T hash smap (makeUname objName) = some si) :
    ((walk hash selfA smap srcFQN dstObjName over del true pODN makeUname promoteA
        isNE fqn false).1 = true ↔ si.id = selfA) ∧
    (si.id ≠ selfA →
      walk hash selfA smap srcFQN dstObjName over del true pODN makeUname promoteA
        isNE fqn false = (false, none)) ∧
    ((∀ t ∈ activeTargets smap, t.id = selfA ∨ t.id = selfB) → selfA ≠ selfB →
      (((walk hash selfA smap srcFQN dstObjName over del true pODN makeUname
          promoteA isNE fqn false).1 = true ∧
        (walk hash selfB smap srcFQN dstObjName over del true pODN makeUname
          promoteB isNE fqn false).1 = false) ∨
       ((walk hash selfA smap srcFQN dstObjName over del true pODN makeUname
          promoteA isNE fqn false).1 = false ∧
        (walk hash selfB smap srcFQN dstObjName over del true pODN makeUname
          promoteB isNE fqn false).1 = true))) := by
  have hwalk : ∀ (selfID : String)
      (promote : String → String → Bool → Bool → Option String),
      walk hash selfID smap srcFQN dstObjName over del true pODN makeUname promote
        isNE fqn false
      = if si.id ≠ selfID then (false, none)
        else
          match promote fqn objName over del with
          | some msg => if isNE msg then (true, none) else (true, some msg)
          | none => (true, none) := by
    intro selfID promote
    simp [walk, hobj, hhrw]
  have hown : ∀ (selfID : String)
      (promote : String → String → Bool → Bool → Option String),
      si.id = selfID →
      (walk hash selfID smap srcFQN dstObjName over del true pODN makeUname promote
        isNE fqn false).1 = true := by
    intro selfID promote hid
    rw [hwalk selfID promote, if_neg (by simp [hid])]
    rcases hpm : promote fqn objName over del with _ | msg
    · simp
    · by_cases hmsg : isNE msg = true <;> simp [hmsg]
  have hskip : ∀ (selfID : String)
      (promote : String → String → Bool → Bool → Option String),
      si.id ≠ selfID →
      walk hash selfID smap srcFQN dstObjName over del true pODN makeUname promote
        isNE fqn false = (false, none) := by
    intro selfID promote hid
    rw [hwalk selfID promote, if_pos hid]
  refine ⟨⟨fun h => ?_, fun h => hown selfA promoteA h⟩, hskip selfA promoteA, ?_⟩
  · by_contra hid
    rw [hskip selfA promoteA hid] at h
    exact Bool.false_ne_true h
  · intro hcov hne
    have hsi := hrwName2T_mem hash smap (makeUname objName) si hhrw
    rcases hcov si hsi with h | h
    · exact Or.inl ⟨hown selfA promoteA h,
        by rw [hskip selfB promoteB (h ▸ hne)]⟩
    · refine Or.inr ⟨?_, hown selfB promoteB h⟩
      rw [hskip selfA promoteA (fun hc => hne (hc ▸ h ▸ rfl))]

theorem walk_fshare_promote_iff_hrw_local_witness :
    (walk c6hash "t1" sampleSmap "/srv" "obj" false false true c6pODN c6makeUname
      c6promote c6isNE "/srv/f" false).1 = true ∧
    walk c6hash "t2" sampleSmap "/srv" "obj" false false true c6pODN c6makeUname
      c6promote c6isNE "/srv/f" false = (false, none) := by
  have hA := walk_fshare_promote_iff_hrw_local c6hash "t1" "t2" sampleSmap "/srv"
    "obj" false false c6pODN c6makeUname c6promote c6promote c6isNE "/srv/f" "obj"
    tOne rfl (by decide)
  have hB := walk_fshare_promote_iff_hrw_local c6hash "t2" "t1" sampleSmap "/srv"
    "obj" false false c6pODN c6makeUname c6promote c6promote c6isNE "/srv/f" "obj"
    tOne rfl (by decide)
  exact ⟨hA.1.mpr rfl, hB.2.1 (by decide)⟩

end xs
